import Mathlib

/-!
Verification of the ffmpeg-tools MCP server (`ffmpeg_mcp/mcp.py`) against its
natural-language specification.

The Python handlers are shallowly embedded as pure Lean functions.  Effects are
made explicit:

* `Runner` / `ByteRunner` are oracles for what `subprocess.run` does on a given
  argument vector: either a completed process (`check=False`, so a non-zero
  exit does not raise) or a raised exception carrying `str(e)` (spawn failure,
  `IndexError` on an empty vector, ...).
* `FileSystem` is an oracle for the filesystem: `isFile` is `os.path.isfile`,
  `readText` is `open(p, "r", encoding="utf-8", errors="replace").read()`
  (so its `.ok` value is already the text with invalid byte sequences
  replaced; `.error` is a raised `OSError` message), and `dirEntries p` is the
  `os.scandir` view used by `pathlib.Path.glob`: `some names` when `p` is a
  readable directory, `none` when `scandir` fails (non-existent path, not a
  directory, permission denied).
* Each handler returns, besides its outcome, the final value of the
  caller-supplied argument list (to capture the in-place `args += [...]`
  mutation) and the trace of argument vectors passed to `subprocess.run`
  or of filesystem locations consulted.
* A handler that `raise`s is modelled by an error constructor of
  `ToolOutcome`: `ValueError` becomes `invalidArguments` and `RuntimeError`
  becomes `handlerFailed`, following the error taxonomy of the dispatch layer.
-/

namespace FfmpegMcp

/-- Dict `{returncode, stdout, stderr}` built by `execute_ff`
(text mode: captured streams are strings). -/
structure ProcessResult where
  returncode : Int
  stdout : String
  stderr : String
deriving Repr, DecidableEq

/-- Outcome of one `subprocess.run(args, ..., text=True, check=False)` call:
either the completed process, or a raised exception carrying `str(e)`.
With `check=False` a non-zero exit code never raises; only spawn-level
failures (executable not found, permission denied, empty argument vector)
do. -/
inductive SpawnOutcome where
  | completed : ProcessResult → SpawnOutcome
  | raised : String → SpawnOutcome
deriving Repr, DecidableEq

/-- Oracle for the operating system: what `subprocess.run` does on each
argument vector (text mode). -/
def Runner : Type := List String → SpawnOutcome

/-- Outcome of a tool handler as seen at the dispatch boundary: a returned
value, or a raised `ValueError` (`InvalidArguments` in the error taxonomy
of the spec), or a raised `RuntimeError` (`HandlerFailed`). -/
inductive ToolOutcome (α : Type) where
  | ok : α → ToolOutcome α
  | invalidArguments : String → ToolOutcome α
  | handlerFailed : String → ToolOutcome α
deriving Repr, DecidableEq

/-- Test whether a handler outcome is an `invalidArguments` error. -/
def ToolOutcome.isInvalidArgs {α : Type} : ToolOutcome α → Bool
  | .invalidArguments _ => true
  | _ => false

/-- Test whether a handler outcome is a `handlerFailed` error. -/
def ToolOutcome.isFailed {α : Type} : ToolOutcome α → Bool
  | .handlerFailed _ => true
  | _ => false

/-- Helper `execute_ff(args)`: runs `subprocess.run(args, stdout=PIPE,
stderr=PIPE, text=True, check=False)` and returns the
`{returncode, stdout, stderr}` dict; any exception `e` is caught and folded
into `{returncode: -1, stdout: "", stderr: str(e)}` — nothing propagates.

Result components: the dict, the final value of the caller-supplied list
(the body never mutates `args`), and the trace of argument vectors passed
to `subprocess.run` (always exactly one). -/
def execute_ff (runner : Runner) (args : List String) :
    ProcessResult × List String × List (List String) :=
  (match runner args with
   | .completed proc => proc
   | .raised e => { returncode := -1, stdout := "", stderr := e },
   args, [args])

/-- Fixed flags appended by `execute_ffmpeg`: `["-v", "warning", "-y"]`. -/
def ffmpegFixedFlags : List String := ["-v", "warning", "-y"]

/-- Tool `execute_ffmpeg(args)`: performs `args += ["-v", "warning", "-y"]`
(an in-place extension of the caller-supplied list object) and delegates to
`execute_ff`.  The body contains no emptiness check and never raises; its
return value is the `execute_ff` dict, returned as structured content. -/
def execute_ffmpeg (runner : Runner) (args : List String) :
    ToolOutcome ProcessResult × List String × List (List String) :=
  let args2 := args ++ ffmpegFixedFlags
  let r := execute_ff runner args2
  (.ok r.1, args2, r.2.2)

/-- Tool `execute_ffprobe(args)`: delegates to `execute_ff` unchanged.  No
flags are appended, no emptiness check is performed, nothing raises. -/
def execute_ffprobe (runner : Runner) (args : List String) :
    ToolOutcome ProcessResult × List String × List (List String) :=
  let r := execute_ff runner args
  (.ok r.1, args, r.2.2)

/-- Oracle for the filesystem as used by the source-inspection handlers. -/
structure FileSystem where
  /-- Probe `os.path.isfile p`. -/
  isFile : String → Bool
  /-- Read `open(p, "r", encoding="utf-8", errors="replace").read()`:
  `.ok text` is the decoded contents, invalid byte sequences already
  replaced by the codec; `.error msg` is a raised `OSError` with message
  `msg`. -/
  readText : String → Except String String
  /-- View of `os.scandir` as used by `pathlib.Path(p).glob`: `some names`
  (immediate entry names, the special entries dot and dot-dot excluded)
  when `p` is a readable directory, `none` when `scandir` raises
  (non-existent path, not a directory, permission denied). -/
  dirEntries : String → Option (List String)

/-- Constant `ffmpeg_src_root`: the module-level value
`str(Path(__file__).resolve().parent.parent) + "/ffmpeg_src/"`, i.e. the
install location of the package with the fixed suffix concatenated. -/
def ffmpeg_src_root (packageParent : String) : String :=
  packageParent ++ "/ffmpeg_src/"

/-- Pattern `*` as compiled by `fnmatch` for `pathlib.Path.glob`: the
resulting regex matches every entry name, with no special case for names
beginning with a dot (that special case exists only in the `glob` module,
not in `pathlib`). -/
def fnmatchStar (_name : String) : Bool := true

/-- Semantics of `pathlib.Path(p).glob("*")` as a list: all immediate entry
names matching `*` when `p` is a readable directory; when `os.scandir`
fails (non-existent path, not a directory, permission denied) the selector
swallows the `OSError` and the glob yields nothing rather than raising. -/
def globStar (fs : FileSystem) (p : String) : List String :=
  match fs.dirEntries p with
  | some entries => entries.filter fnmatchStar
  | none => []

/-- Tool `get_ffmpeg_source_code(path)`: raises
`ValueError("Missing file path")` when `path` is falsy (the empty string);
otherwise forms `full_path = ffmpeg_src_root + path` by plain string
concatenation, returns the string `"Invalid path: " + full_path` when
`os.path.isfile` is false, and otherwise returns the file text read with
`errors="replace"`, folding a raised read error `e` into the string
`"Error reading file: " + str(e)`.

Result components: the outcome and the trace of filesystem locations
consulted (the `isfile` probe and, when it succeeds, the `open`). -/
def get_ffmpeg_source_code (fs : FileSystem) (root : String) (path : String) :
    ToolOutcome String × List String :=
  if path = "" then (.invalidArguments "Missing file path", [])
  else
    let full_path := root ++ path
    if fs.isFile full_path then
      match fs.readText full_path with
      | .ok text => (.ok text, [full_path, full_path])
      | .error e => (.ok ("Error reading file: " ++ e), [full_path, full_path])
    else (.ok ("Invalid path: " ++ full_path), [full_path])

/-- Tool `ls_ffmpeg_source_code(path)`: raises
`ValueError("Missing file path")` when `path` is falsy (the empty string);
otherwise collects the names yielded by
`Path(ffmpeg_src_root + path).glob("*")`.  The `except Exception` branch
that would re-raise as `RuntimeError("Error reading file: ...")` is
unreachable for this fixed pattern, because `glob` swallows the `OSError`
from `scandir` and yields nothing (see `globStar`).

Result components: the outcome and the trace of filesystem locations
consulted. -/
def ls_ffmpeg_source_code (fs : FileSystem) (root : String) (path : String) :
    ToolOutcome (List String) × List String :=
  if path = "" then (.invalidArguments "Missing file path", [])
  else (.ok (globStar fs (root ++ path)), [root ++ path])

/-- Process result in binary mode (`subprocess.run` without `text=True`):
`stdout` is the captured byte sequence; `stderr` is kept abstract as the
string rendered into messages by the f-string formatting of `proc.stderr`. -/
structure ByteProcessResult where
  returncode : Int
  stdout : List Nat
  stderr : String
deriving Repr, DecidableEq

/-- Outcome of one binary-mode `subprocess.run` call. -/
inductive ByteSpawnOutcome where
  | completed : ByteProcessResult → ByteSpawnOutcome
  | raised : String → ByteSpawnOutcome
deriving Repr, DecidableEq

/-- Oracle for the operating system in binary mode. -/
def ByteRunner : Type := List String → ByteSpawnOutcome

/-- Fixed command vector built by `get_screenshot`. -/
def screenshot_cmd (file_path timestamp : String) : List String :=
  ["ffmpeg", "-ss", timestamp, "-i", file_path, "-frames:v", "1",
   "-f", "image2pipe", "-vcodec", "png", "-v", "error", "-y", "-"]

/-- Outcome of `get_screenshot`: a returned `Image(data, format)` object or
a raised `RuntimeError` (a `HandlerFailed` at the dispatch boundary). -/
inductive ImageOutcome where
  | image : List Nat → String → ImageOutcome
  | handlerFailed : String → ImageOutcome
deriving Repr, DecidableEq

/-- Tool `get_screenshot(file_path, timestamp)`: runs the fixed command
vector; when the process completes with `returncode != 0 or not proc.stdout`
it raises `RuntimeError` with message `"ffmpeg error: "` followed by the
captured stderr, which the outer handler re-raises wrapped in
`"Failed to extract screenshot: "`; otherwise it returns
`Image(data=proc.stdout, format="png")`.  A spawn failure `e` is likewise
re-raised wrapped. -/
def get_screenshot (runner : ByteRunner) (file_path timestamp : String) :
    ImageOutcome :=
  match runner (screenshot_cmd file_path timestamp) with
  | .raised e => .handlerFailed ("Failed to extract screenshot: " ++ e)
  | .completed proc =>
      if proc.returncode ≠ 0 ∨ proc.stdout = [] then
        .handlerFailed ("Failed to extract screenshot: ffmpeg error: " ++ proc.stderr)
      else .image proc.stdout "png"

/-! Concrete fixtures used by counterexamples and witnesses. -/

/-- Runner on which every spawn fails, as when no executable on the vector
exists (`FileNotFoundError`). -/
def enoentRunner : Runner := fun _ => .raised "No such file or directory"

/-- Runner on which every spawn fails with message `"boom"`. -/
def boomRunner : Runner := fun _ => .raised "boom"

/-- Binary-mode runner on which every command completes with exit code 0 and
four bytes of output (the PNG magic header). -/
def pngRunner : ByteRunner :=
  fun _ => .completed { returncode := 0, stdout := [137, 80, 78, 71], stderr := "" }

/-- Binary-mode runner on which every command completes with exit code 1,
empty output and captured stderr `"bad file"`. -/
def badFileRunner : ByteRunner :=
  fun _ => .completed { returncode := 1, stdout := [], stderr := "bad file" }

/-- Filesystem on which nothing exists: no regular files, every read raises,
every directory scan fails. -/
def fsNone : FileSystem :=
  { isFile := fun _ => false
    readText := fun _ => .error "No such file or directory"
    dirEntries := fun _ => none }

/-- Filesystem on which every directory scan yields exactly `a.c`, `b.c`. -/
def fsAB : FileSystem :=
  { isFile := fun _ => false
    readText := fun _ => .error "No such file or directory"
    dirEntries := fun _ => some ["a.c", "b.c"] }

/-- Filesystem on which every directory scan yields a dot-prefixed entry
`.hidden` alongside `a.c`. -/
def fsHidden : FileSystem :=
  { isFile := fun _ => false
    readText := fun _ => .error "No such file or directory"
    dirEntries := fun _ => some [".hidden", "a.c"] }

/-- Filesystem on which every path is a regular file with contents
`"int x;"`. -/
def fsFile : FileSystem :=
  { isFile := fun _ => true
    readText := fun _ => .ok "int x;"
    dirEntries := fun _ => none }

/-! Theorems settling the claims. -/

/-- C1 is false on the code: with an empty argument list and an operating
system on which every spawn fails, `execute_ffmpeg` passes the vector
`["-v", "warning", "-y"]` to `subprocess.run` (a spawn is attempted) and
returns the folded `ProcessResult` as an ordinary `ok` value — it never
produces an `InvalidArguments` error. -/
theorem C1_counterexample :
    (execute_ffmpeg enoentRunner []).1.isInvalidArgs = false ∧
    (execute_ffmpeg enoentRunner []).2.2 = [["-v", "warning", "-y"]] ∧
    (execute_ffmpeg enoentRunner []).1 =
      .ok { returncode := -1, stdout := "", stderr := "No such file or directory" } :=
  ⟨rfl, rfl, rfl⟩

/-- C1 (amended): the command-execution handlers perform no emptiness
validation.  On an empty argument list, for every operating-system
behaviour, `execute_ffmpeg` invokes `subprocess.run` on exactly the fixed
flags `["-v", "warning", "-y"]` and `execute_ffprobe` invokes it on the
empty vector; each returns the resulting `ProcessResult` dict as a
successful value and neither ever returns `InvalidArguments`. -/
theorem C1_amended (runner : Runner) :
    (execute_ffmpeg runner []).1.isInvalidArgs = false ∧
    (execute_ffmpeg runner []).2.2 = [ffmpegFixedFlags] ∧
    (execute_ffmpeg runner []).1 = .ok (execute_ff runner ffmpegFixedFlags).1 ∧
    (execute_ffprobe runner []).1.isInvalidArgs = false ∧
    (execute_ffprobe runner []).2.2 = [([] : List String)] ∧
    (execute_ffprobe runner []).1 = .ok (execute_ff runner []).1 :=
  ⟨rfl, rfl, rfl, rfl, rfl, rfl⟩

/-- C2: whenever `subprocess.run` raises with message `e` (executable not
found, permission denied, ...), `execute_ff` returns the dict with
`returncode = -1`, empty stdout and stderr equal to the failure
description — the exception never propagates to the caller. -/
theorem C2_spawn_failure (runner : Runner) (args : List String) (e : String)
    (h : runner args = .raised e) :
    (execute_ff runner args).1 = { returncode := -1, stdout := "", stderr := e } := by
  simp [execute_ff, h]

/-- Witness for C2 at a concrete runner and argument vector. -/
theorem C2_witness :
    (execute_ff boomRunner ["ffmpeg"]).1 =
      { returncode := -1, stdout := "", stderr := "boom" } :=
  C2_spawn_failure boomRunner ["ffmpeg"] "boom" rfl

/-- C3: whenever the spawned screenshot process completes with result
`proc`, `get_screenshot` raises a `HandlerFailed` carrying the captured
stderr exactly when the exit code is non-zero or the captured stdout is
empty; otherwise it returns the captured stdout bytes as an image payload
tagged `"png"`. -/
theorem C3_screenshot (runner : ByteRunner) (fp ts : String)
    (proc : ByteProcessResult)
    (h : runner (screenshot_cmd fp ts) = .completed proc) :
    (get_screenshot runner fp ts =
        .handlerFailed ("Failed to extract screenshot: ffmpeg error: " ++ proc.stderr)
      ↔ (proc.returncode ≠ 0 ∨ proc.stdout = [])) ∧
    (proc.returncode = 0 → proc.stdout ≠ [] →
      get_screenshot runner fp ts = .image proc.stdout "png") := by
  unfold get_screenshot
  rw [h]
  by_cases hc : proc.returncode ≠ 0 ∨ proc.stdout = []
  · simp [hc]
    intro h0
    rcases hc with h1 | h2
    · exact absurd h0 h1
    · exact h2
  · simp [hc]

/-- Witness for C3 at a concrete runner whose process succeeds with the
four PNG magic-header bytes on stdout. -/
theorem C3_witness :
    get_screenshot pngRunner "in.mp4" "00:00:01" = .image [137, 80, 78, 71] "png" :=
  (C3_screenshot pngRunner "in.mp4" "00:00:01"
      { returncode := 0, stdout := [137, 80, 78, 71], stderr := "" } rfl).2
    rfl (by decide)

/-- C4: for every argument list and operating-system behaviour,
`execute_ffmpeg` passes to `subprocess.run` exactly the caller arguments
extended with the fixed flags `["-v", "warning", "-y"]` and returns the
full resulting `ProcessResult` dict, while `execute_ffprobe` passes the
caller arguments unchanged with no flags appended. -/
theorem C4_flag_handling (runner : Runner) (args : List String) :
    (execute_ffmpeg runner args).2.2 = [args ++ ["-v", "warning", "-y"]] ∧
    (execute_ffmpeg runner args).1 =
      .ok (execute_ff runner (args ++ ["-v", "warning", "-y"])).1 ∧
    (execute_ffprobe runner args).2.2 = [args] ∧
    (execute_ffprobe runner args).1 = .ok (execute_ff runner args).1 :=
  ⟨rfl, rfl, rfl, rfl⟩

/-- C5 is half false on the code: on a filesystem with no readable
directories (the non-existent-directory case), `ls_ffmpeg_source_code`
returns the empty list as an ordinary `ok` value — `glob` swallows the
scandir error, so no `HandlerFailed` is produced. -/
theorem C5_counterexample :
    (ls_ffmpeg_source_code fsNone "/r/ffmpeg_src/" "/nope/").1 = .ok [] ∧
    (ls_ffmpeg_source_code fsNone "/r/ffmpeg_src/" "/nope/").1.isFailed = false := by
  constructor <;> simp [ls_ffmpeg_source_code, globStar, fsNone, ToolOutcome.isFailed]

/-- C5 (amended): on a non-empty path, `ls_ffmpeg_source_code` returns
exactly `["a.c", "b.c"]` when the resolved directory scan yields those two
entries, and returns the empty list (an ordinary `ok` value, not a
`HandlerFailed` error) when the resolved directory cannot be scanned. -/
theorem C5_directory_listing (fs : FileSystem) (root path : String)
    (hp : path ≠ "") :
    (fs.dirEntries (root ++ path) = some ["a.c", "b.c"] →
      (ls_ffmpeg_source_code fs root path).1 = .ok ["a.c", "b.c"]) ∧
    (fs.dirEntries (root ++ path) = none →
      (ls_ffmpeg_source_code fs root path).1 = .ok []) := by
  constructor <;> intro h <;> simp [ls_ffmpeg_source_code, globStar, hp, h, fnmatchStar]

/-- Witness for C5 at a concrete filesystem whose directory scan yields
`a.c` and `b.c`. -/
theorem C5_witness :
    (ls_ffmpeg_source_code fsAB "/r/ffmpeg_src/" "/d/").1 = .ok ["a.c", "b.c"] :=
  (C5_directory_listing fsAB "/r/ffmpeg_src/" "/d/" (by decide)).1 rfl

/-- C6: on every non-empty path, `get_ffmpeg_source_code` never raises:
when the resolved location is not a regular file it returns the
descriptive string `"Invalid path: "` followed by the resolved location;
when it is a regular file it returns the decoded text (invalid byte
sequences replaced by the codec); in every case the outcome is an
ordinary returned string. -/
theorem C6_read_no_raise (fs : FileSystem) (root path : String)
    (hp : path ≠ "") :
    (fs.isFile (root ++ path) = false →
      (get_ffmpeg_source_code fs root path).1 =
        .ok ("Invalid path: " ++ (root ++ path))) ∧
    (∀ text, fs.isFile (root ++ path) = true →
      fs.readText (root ++ path) = .ok text →
      (get_ffmpeg_source_code fs root path).1 = .ok text) ∧
    (∃ s, (get_ffmpeg_source_code fs root path).1 = .ok s) := by
  refine ⟨fun h => by simp [get_ffmpeg_source_code, hp, h],
          fun t h1 h2 => by simp [get_ffmpeg_source_code, hp, h1, h2], ?_⟩
  by_cases h : fs.isFile (root ++ path)
  · cases hr : fs.readText (root ++ path) with
    | ok t => exact ⟨t, by simp [get_ffmpeg_source_code, hp, h, hr]⟩
    | error e =>
        exact ⟨"Error reading file: " ++ e,
          by simp [get_ffmpeg_source_code, hp, h, hr]⟩
  · exact ⟨"Invalid path: " ++ (root ++ path),
      by simp [get_ffmpeg_source_code, hp, h]⟩

/-- Witness for C6 at a concrete filesystem on which the resolved path is a
regular file containing `"int x;"`. -/
theorem C6_witness :
    (get_ffmpeg_source_code fsFile "/r/ffmpeg_src/" "/a.c").1 = .ok "int x;" :=
  (C6_read_no_raise fsFile "/r/ffmpeg_src/" "/a.c" (by decide)).2.1 "int x;" rfl rfl

/-- C7: for every non-empty path (including paths containing dot-dot
segments), every filesystem location consulted by `get_ffmpeg_source_code`
and `ls_ffmpeg_source_code` is exactly the plain string concatenation of
the fixed root with the given path — no sanitization is applied — and at
least one location is consulted. -/
theorem C7_plain_concatenation (fs : FileSystem) (root path : String)
    (hp : path ≠ "") :
    (∀ q ∈ (get_ffmpeg_source_code fs root path).2, q = root ++ path) ∧
    (get_ffmpeg_source_code fs root path).2 ≠ [] ∧
    (ls_ffmpeg_source_code fs root path).2 = [root ++ path] := by
  refine ⟨?_, ?_, by simp [ls_ffmpeg_source_code, hp]⟩ <;>
    · unfold get_ffmpeg_source_code
      rw [if_neg hp]
      by_cases h : fs.isFile (root ++ path) <;>
        cases hr : fs.readText (root ++ path) <;> simp [h, hr]

/-- Witness for C7 at a concrete path containing a parent-directory
traversal segment. -/
theorem C7_witness :
    (ls_ffmpeg_source_code fsNone "/r/ffmpeg_src/" "/../secret").2 =
      ["/r/ffmpeg_src/" ++ "/../secret"] :=
  (C7_plain_concatenation fsNone "/r/ffmpeg_src/" "/../secret" (by decide)).2.2

/-- C8: on the empty path, both source-inspection handlers raise
`ValueError("Missing file path")` — an `InvalidArguments` error — and
their trace of consulted filesystem locations is empty, for every
filesystem and root. -/
theorem C8_empty_path (fs : FileSystem) (root : String) :
    get_ffmpeg_source_code fs root "" = (.invalidArguments "Missing file path", []) ∧
    ls_ffmpeg_source_code fs root "" = (.invalidArguments "Missing file path", []) := by
  constructor <;> simp [get_ffmpeg_source_code, ls_ffmpeg_source_code]

/-- C9 is false on the code: on a directory whose scan yields the
dot-prefixed entry `.hidden` alongside `a.c`, `ls_ffmpeg_source_code`
returns both names — hidden entries are not omitted, because `pathlib`
applies no hidden-file special case to the pattern `*`. -/
theorem C9_counterexample :
    (ls_ffmpeg_source_code fsHidden "/r/ffmpeg_src/" "/d/").1 =
      .ok [".hidden", "a.c"] := by
  simp [ls_ffmpeg_source_code, globStar, fsHidden, fnmatchStar]

/-- C9 (amended): on every non-empty path whose resolved directory scan
yields entry names `es`, `ls_ffmpeg_source_code` returns exactly `es` —
all immediate entries, dot-prefixed (hidden) names included, since the
`pathlib` glob pattern `*` matches every name. -/
theorem C9_all_entries (fs : FileSystem) (root path : String)
    (es : List String) (hp : path ≠ "")
    (hd : fs.dirEntries (root ++ path) = some es) :
    (ls_ffmpeg_source_code fs root path).1 = .ok es := by
  simp [ls_ffmpeg_source_code, globStar, hp, hd, fnmatchStar]

/-- Witness for C9 at a concrete filesystem whose directory scan yields a
hidden entry. -/
theorem C9_witness :
    (ls_ffmpeg_source_code fsHidden "/r/ffmpeg_src/" "/dir/").1 =
      .ok [".hidden", "a.c"] :=
  C9_all_entries fsHidden "/r/ffmpeg_src/" "/dir/" [".hidden", "a.c"] (by decide) rfl

/-- C10: for every argument list and operating-system behaviour, after
`execute_ffmpeg` returns, the caller-supplied list object has
`["-v", "warning", "-y"]` appended in place, while both `execute_ff` and
`execute_ffprobe` leave the caller-supplied list unchanged. -/
theorem C10_mutation (runner : Runner) (args : List String) :
    (execute_ffmpeg runner args).2.1 = args ++ ["-v", "warning", "-y"] ∧
    (execute_ff runner args).2.1 = args ∧
    (execute_ffprobe runner args).2.1 = args :=
  ⟨rfl, rfl, rfl⟩

end FfmpegMcp
